import Mathlib

set_option maxRecDepth 8000

/-!
Shallow embedding of `is601_module11_assignment`:
* `src/app/schemas/calculation.py` — pydantic shapes for the calculation
  resource (`CalculationBase`, `CalculationCreate`, `CalculationUpdate`,
  `CalculationInDBBase`, `CalculationResponse`);
* `src/tests/conftest.py` — the test-environment orchestrator: fake-user
  generation, per-test database sessions, bulk seeding, server health
  polling and the live-server fixture.

JSON-ish values flowing into the validators are modelled by `JsonValue`;
pydantic validation of each declared class becomes an explicit
`Option`-returning validator over a field list, and `model dump` output
becomes an explicit field list.
-/

/-- A JSON-ish value as seen by the pydantic validators: numbers are `Rat`
(the schemas use `float` fields only for arithmetic-free validation), plus
strings, arrays, null, and the already-parsed `UUID` / `datetime` payloads
pydantic produces for those field types. -/
inductive JsonValue where
  | num (q : Rat)
  | str (s : String)
  | arr (xs : List JsonValue)
  | nullV
  | uuid (u : Nat)
  | datetime (d : Nat)

/-- An input object: association list of field name to value. -/
abbrev JsonObject := List (String × JsonValue)

/-- The four admissible values of the `type` literal in
`CalculationBase` (calculation.py line 8). -/
def validTypes : List String := ["addition", "subtraction", "multiplication", "division"]

/-- Parse a list of JSON values as the elements of a `List[float]` field:
every element must be numeric. -/
def floatsOf : List JsonValue → Option (List Rat)
  | [] => some []
  | JsonValue.num q :: rest => (floatsOf rest).map (fun l => q :: l)
  | _ => none

/-- Parse a JSON value as a `List[float]` field value. -/
def asFloatList : JsonValue → Option (List Rat)
  | JsonValue.arr xs => floatsOf xs
  | _ => none

/-- `CalculationBase` (calculation.py lines 7-10): `type` constrained to the
four literals, `inputs : List[float]`, `user_id : UUID`. -/
structure CalculationBase where
  type : String
  inputs : List Rat
  user_id : Nat
deriving DecidableEq

/-- Pydantic validation of `CalculationBase`: `type` must be one of the four
literal strings, `inputs` a list of numbers, `user_id` a UUID. -/
def CalculationBase.validate (o : JsonObject) : Option CalculationBase :=
  match List.lookup "type" o with
  | some (JsonValue.str t) =>
    if t ∈ validTypes then
      match (List.lookup "inputs" o).bind asFloatList, List.lookup "user_id" o with
      | some ins, some (JsonValue.uuid u) => some { type := t, inputs := ins, user_id := u }
      | _, _ => none
    else none
  | _ => none

/-- Serialized (dumped) output of a validated `CalculationBase`. -/
def CalculationBase.dump (c : CalculationBase) : JsonObject :=
  [("type", JsonValue.str c.type),
   ("inputs", JsonValue.arr (c.inputs.map JsonValue.num)),
   ("user_id", JsonValue.uuid c.user_id)]

/-- `CalculationCreate` (calculation.py lines 13-14) is `CalculationBase`
with no extra fields (`pass`). -/
abbrev CalculationCreate := CalculationBase

/-- Validation of `CalculationCreate` is exactly that of `CalculationBase`. -/
def CalculationCreate.validate (o : JsonObject) : Option CalculationCreate :=
  CalculationBase.validate o

/-- Dump of `CalculationCreate` is exactly that of `CalculationBase`. -/
def CalculationCreate.dump (c : CalculationCreate) : JsonObject :=
  CalculationBase.dump c

/-- `CalculationUpdate` (calculation.py lines 17-18): a single optional
field `inputs : Optional[List[float]] = None`. -/
structure CalculationUpdate where
  inputs : Option (List Rat)
deriving DecidableEq

/-- Pydantic validation of `CalculationUpdate`: a missing or null `inputs`
field yields the `None` default; a present one must be a list of numbers. -/
def CalculationUpdate.validate (o : JsonObject) : Option CalculationUpdate :=
  match List.lookup "inputs" o with
  | none => some { inputs := none }
  | some JsonValue.nullV => some { inputs := none }
  | some v => (asFloatList v).map (fun l => { inputs := some l })

/-- Serialized output of a validated `CalculationUpdate`. -/
def CalculationUpdate.dump (u : CalculationUpdate) : JsonObject :=
  [("inputs", match u.inputs with
    | none => JsonValue.nullV
    | some l => JsonValue.arr (l.map JsonValue.num))]

/-- `CalculationResponse` (calculation.py lines 21-32): the base fields plus
`id`, `created_at`, `updated_at` from `CalculationInDBBase`, and the
required numeric `result` field. -/
structure CalculationResponse where
  type : String
  inputs : List Rat
  user_id : Nat
  id : Nat
  created_at : Nat
  updated_at : Nat
  result : Rat
deriving DecidableEq

/-- Pydantic validation of `CalculationResponse`: all base fields, a UUID
`id`, two datetimes, and a required numeric `result` (`Field(...)`). -/
def CalculationResponse.validate (o : JsonObject) : Option CalculationResponse :=
  match CalculationBase.validate o with
  | none => none
  | some b =>
    match List.lookup "id" o, List.lookup "created_at" o,
          List.lookup "updated_at" o, List.lookup "result" o with
    | some (JsonValue.uuid i), some (JsonValue.datetime c),
      some (JsonValue.datetime m), some (JsonValue.num r) =>
        some { type := b.type, inputs := b.inputs, user_id := b.user_id,
               id := i, created_at := c, updated_at := m, result := r }
    | _, _, _, _ => none

/-- Serialized output of a validated `CalculationResponse`, including the
`result` field. -/
def CalculationResponse.dump (r : CalculationResponse) : JsonObject :=
  [("type", JsonValue.str r.type),
   ("inputs", JsonValue.arr (r.inputs.map JsonValue.num)),
   ("user_id", JsonValue.uuid r.user_id),
   ("id", JsonValue.uuid r.id),
   ("created_at", JsonValue.datetime r.created_at),
   ("updated_at", JsonValue.datetime r.updated_at),
   ("result", JsonValue.num r.result)]

lemma floatsOf_map_num (ins : List Rat) : floatsOf (ins.map JsonValue.num) = some ins := by
  induction ins with
  | nil => rfl
  | cons q rest ih => simp [floatsOf, ih]

/-- C10: the calculation update shape accepts an input with no fields at
all: validating the empty object succeeds and yields `inputs = none`, the
absent/None default. -/
theorem calculationUpdate_accepts_empty :
    CalculationUpdate.validate [] = some { inputs := none } := rfl

/-- C6: validation of the create shape rejects every input whose `type`
field is a string outside {addition, subtraction, multiplication,
division}, and accepts every `type` inside that set when the remaining
fields are valid. -/
theorem calculationCreate_type_gate :
    (∀ (o : JsonObject) (s : String), List.lookup "type" o = some (JsonValue.str s) →
      s ∉ validTypes → CalculationCreate.validate o = none) ∧
    (∀ (s : String) (ins : List Rat) (u : Nat), s ∈ validTypes →
      CalculationCreate.validate
        [("type", JsonValue.str s), ("inputs", JsonValue.arr (ins.map JsonValue.num)),
         ("user_id", JsonValue.uuid u)] =
      some { type := s, inputs := ins, user_id := u }) := by
  constructor
  · intro o s ht hs
    unfold CalculationCreate.validate CalculationBase.validate
    rw [ht]
    simp [hs]
  · intro s ins u hs
    unfold CalculationCreate.validate CalculationBase.validate
    simp [List.lookup, hs, asFloatList, floatsOf_map_num]

/-- C6 witness: a concrete rejected `type` and a concrete accepted one. -/
theorem calculationCreate_type_gate_witness :
    CalculationCreate.validate [("type", JsonValue.str "modulo")] = none ∧
    CalculationCreate.validate
      [("type", JsonValue.str "addition"), ("inputs", JsonValue.arr [JsonValue.num 1]),
       ("user_id", JsonValue.uuid 7)] =
      some { type := "addition", inputs := [1], user_id := 7 } :=
  ⟨calculationCreate_type_gate.1 _ "modulo" rfl (by decide),
   calculationCreate_type_gate.2 "addition" [1] 7 (by decide)⟩

/-- C5: the `result` field is present only in the response shape — a
validated response input always carries a numeric `result` field, the
response dump includes it, and the create/update dumps never contain a
`result` key. -/
theorem result_only_in_response :
    (∀ (o : JsonObject) (r : CalculationResponse), CalculationResponse.validate o = some r →
      List.lookup "result" o = some (JsonValue.num r.result)) ∧
    (∀ r : CalculationResponse, ("result", JsonValue.num r.result) ∈ CalculationResponse.dump r) ∧
    (∀ c : CalculationCreate, "result" ∉ (CalculationCreate.dump c).map Prod.fst) ∧
    (∀ u : CalculationUpdate, "result" ∉ (CalculationUpdate.dump u).map Prod.fst) := by
  refine ⟨?_, ?_, ?_, ?_⟩
  · intro o r h
    unfold CalculationResponse.validate at h
    split at h
    · exact absurd h (by simp)
    · split at h
      · obtain rfl := Option.some.inj h
        assumption
      · exact absurd h (by simp)
  · intro r
    simp [CalculationResponse.dump]
  · intro c
    simp [CalculationCreate.dump, CalculationBase.dump]
  · intro u
    simp [CalculationUpdate.dump]

/-- C5 witness: a concrete response input validates and indeed carries a
numeric `result` field. -/
theorem result_only_in_response_witness :
    List.lookup "result"
      [("type", JsonValue.str "addition"), ("inputs", JsonValue.arr []),
       ("user_id", JsonValue.uuid 1), ("id", JsonValue.uuid 2),
       ("created_at", JsonValue.datetime 3), ("updated_at", JsonValue.datetime 4),
       ("result", JsonValue.num 5)] = some (JsonValue.num 5) :=
  result_only_in_response.1 _
    { type := "addition", inputs := [], user_id := 1, id := 2,
      created_at := 3, updated_at := 4, result := 5 } rfl

/-!
Fake-user generation and bulk seeding (conftest.py lines 34-53 and
152-168). The third-party Faker generator is modelled as explicit state:
a pseudo-random word for the non-unique fields and one counter per
`unique`-proxied method (faker tracks uniqueness per method), each counter
yielding a fresh decimal-tagged value. `Faker.seed(12345)` makes the
state a function of the seed alone, discarding ambient entropy.
-/

/-- Decimal digit characters of a counter value, most significant first
(`decDigits 0 = []`). -/
def decDigits (n : Nat) : List Char :=
  ((Nat.digits 10 n).map Nat.digitChar).reverse

/-- Inverse of `Nat.digitChar` on decimal digits. -/
def charToDigit (c : Char) : Nat := c.toNat - 48

/-- Faker generator state: rng word plus the two `unique` proxy counters
used by `create_fake_user`. -/
structure FakerState where
  rng : Nat
  emailCtr : Nat
  userNameCtr : Nat
deriving DecidableEq

/-- `fake = Faker()` / `Faker.seed(12345)` (conftest.py lines 34-35): a
seeded generator starts from the seed alone; an unseeded one starts from
ambient entropy. -/
def fakerInit (seed : Option Nat) (entropy : Nat) : FakerState :=
  match seed with
  | some s => { rng := s % 2 ^ 31, emailCtr := 0, userNameCtr := 0 }
  | none => { rng := entropy % 2 ^ 31, emailCtr := 0, userNameCtr := 0 }

/-- One step of the pseudo-random word. -/
def lcg (s : Nat) : Nat := (1103515245 * s + 12345) % 2 ^ 31

/-- Name pool for `fake.first_name()`. -/
def firstNames : List String := ["James", "Mary", "John", "Patricia", "Robert", "Jennifer"]

/-- Name pool for `fake.last_name()`. -/
def lastNames : List String := ["Smith", "Johnson", "Williams", "Brown", "Jones"]

/-- `fake.first_name()`: draw from the pool, advance the rng. -/
def fakeFirstName (st : FakerState) : String × FakerState :=
  (firstNames.getD (st.rng % firstNames.length) "", { st with rng := lcg st.rng })

/-- `fake.last_name()`: draw from the pool, advance the rng. -/
def fakeLastName (st : FakerState) : String × FakerState :=
  (lastNames.getD (st.rng % lastNames.length) "", { st with rng := lcg st.rng })

/-- The distinct email issued by the `unique` proxy for counter `n`. -/
def uniqueEmail (n : Nat) : String :=
  String.mk ("user".data ++ (decDigits n ++ "@example.com".data))

/-- The distinct username issued by the `unique` proxy for counter `n`. -/
def uniqueUserName (n : Nat) : String :=
  String.mk ("user_".data ++ decDigits n)

/-- `fake.unique.email()`: fresh value, bump the email counter. -/
def fakeUniqueEmail (st : FakerState) : String × FakerState :=
  (uniqueEmail st.emailCtr, { st with emailCtr := st.emailCtr + 1 })

/-- `fake.unique.user_name()`: fresh value, bump the username counter. -/
def fakeUniqueUserName (st : FakerState) : String × FakerState :=
  (uniqueUserName st.userNameCtr, { st with userNameCtr := st.userNameCtr + 1 })

/-- `fake.password(length=12)`: rng-derived, advances the rng. -/
def fakePassword (st : FakerState) : String × FakerState :=
  (String.mk ('p' :: 'w' :: decDigits st.rng), { st with rng := lcg st.rng })

/-- The attribute dict built by `create_fake_user` (conftest.py 46-53). -/
structure UserData where
  first_name : String
  last_name : String
  email : String
  username : String
  password : String
deriving DecidableEq

/-- `create_fake_user` (conftest.py lines 46-53): five generator calls in
source order, threading the generator state. -/
def create_fake_user (st : FakerState) : UserData × FakerState :=
  let r1 := fakeFirstName st
  let r2 := fakeLastName r1.2
  let r3 := fakeUniqueEmail r2.2
  let r4 := fakeUniqueUserName r3.2
  let r5 := fakePassword r4.2
  ({ first_name := r1.1, last_name := r2.1, email := r3.1,
     username := r4.1, password := r5.1 }, r5.2)

/-- An ORM session as `seed_users` uses it: objects added but not yet
committed, committed rows, and how many commits have run. -/
structure OrmSession where
  pending : List UserData
  committed : List UserData
  commits : Nat
deriving DecidableEq

/-- `db_session.add(user)`: stage one object in the open transaction. -/
def sessionAdd (s : OrmSession) (u : UserData) : OrmSession :=
  { s with pending := s.pending ++ [u] }

/-- `db_session.commit()`: publish everything pending, count one commit. -/
def sessionCommit (s : OrmSession) : OrmSession :=
  { pending := [], committed := s.committed ++ s.pending, commits := s.commits + 1 }

/-- The `for` loop of `seed_users`: build and stage `n` fake users. -/
def buildUsers : Nat → FakerState → List UserData × FakerState
  | 0, fk => ([], fk)
  | n + 1, fk =>
    let r := create_fake_user fk
    let rest := buildUsers n r.2
    (r.1 :: rest.1, rest.2)

/-- `seed_users` count selection: `try: request.param` with
`except AttributeError: num_users = 5` — an absent pytest param falls back
to the default 5. -/
def seedCount (param : Option Nat) : Nat :=
  match param with
  | some n => n
  | none => 5

/-- `seed_users` (conftest.py lines 152-168): pick the count, build the
fake users, `add` each in the loop, commit once, return the list. -/
def seed_users (param : Option Nat) (fk : FakerState) (s : OrmSession) :
    List UserData × FakerState × OrmSession :=
  let n := seedCount param
  let built := buildUsers n fk
  let s1 := built.1.foldl sessionAdd s
  let s2 := sessionCommit s1
  (built.1, built.2, s2)

lemma charToDigit_digitChar : ∀ d : Nat, d < 10 → charToDigit (Nat.digitChar d) = d := by
  decide

lemma decDigits_ofDigits (n : Nat) :
    Nat.ofDigits 10 ((decDigits n).reverse.map charToDigit) = n := by
  unfold decDigits
  rw [List.reverse_reverse, List.map_map]
  have h : ∀ d ∈ Nat.digits 10 n, (charToDigit ∘ Nat.digitChar) d = id d := by
    intro d hd
    exact charToDigit_digitChar d (Nat.digits_lt_base (by norm_num) hd)
  rw [List.map_congr_left h, List.map_id]
  exact_mod_cast Nat.ofDigits_digits 10 n

lemma decDigits_inj {a b : Nat} (h : decDigits a = decDigits b) : a = b := by
  have ha := decDigits_ofDigits a
  rw [h, decDigits_ofDigits b] at ha
  exact ha.symm

lemma uniqueEmail_inj {a b : Nat} (h : uniqueEmail a = uniqueEmail b) : a = b := by
  have hd : "user".data ++ (decDigits a ++ "@example.com".data) =
      "user".data ++ (decDigits b ++ "@example.com".data) := congrArg String.data h
  exact decDigits_inj (List.append_cancel_right (List.append_cancel_left hd))

lemma uniqueUserName_inj {a b : Nat} (h : uniqueUserName a = uniqueUserName b) : a = b := by
  have hd : "user_".data ++ decDigits a = "user_".data ++ decDigits b :=
    congrArg String.data h
  exact decDigits_inj (List.append_cancel_left hd)

lemma uniqueEmail_ne_empty (n : Nat) : uniqueEmail n ≠ "" := by
  intro h
  have hd : "user".data ++ (decDigits n ++ "@example.com".data) = [] :=
    congrArg String.data h
  rcases List.append_eq_nil.mp hd with ⟨h1, h2⟩
  exact absurd h1 (by decide)

lemma uniqueUserName_ne_empty (n : Nat) : uniqueUserName n ≠ "" := by
  intro h
  have hd : "user_".data ++ decDigits n = [] := congrArg String.data h
  rcases List.append_eq_nil.mp hd with ⟨h1, h2⟩
  exact absurd h1 (by decide)

lemma create_fake_user_emailCtr (fk : FakerState) :
    ((create_fake_user fk).2).emailCtr = fk.emailCtr + 1 := by
  simp [create_fake_user, fakeFirstName, fakeLastName, fakeUniqueEmail,
    fakeUniqueUserName, fakePassword]

lemma create_fake_user_userNameCtr (fk : FakerState) :
    ((create_fake_user fk).2).userNameCtr = fk.userNameCtr + 1 := by
  simp [create_fake_user, fakeFirstName, fakeLastName, fakeUniqueEmail,
    fakeUniqueUserName, fakePassword]

lemma create_fake_user_email (fk : FakerState) :
    ((create_fake_user fk).1).email = uniqueEmail fk.emailCtr := by
  simp [create_fake_user, fakeFirstName, fakeLastName, fakeUniqueEmail,
    fakeUniqueUserName, fakePassword]

lemma create_fake_user_username (fk : FakerState) :
    ((create_fake_user fk).1).username = uniqueUserName fk.userNameCtr := by
  simp [create_fake_user, fakeFirstName, fakeLastName, fakeUniqueEmail,
    fakeUniqueUserName, fakePassword]

lemma buildUsers_succ_fst (n : Nat) (fk : FakerState) :
    (buildUsers (n + 1) fk).1 =
      (create_fake_user fk).1 :: (buildUsers n (create_fake_user fk).2).1 := rfl

lemma buildUsers_succ_snd (n : Nat) (fk : FakerState) :
    (buildUsers (n + 1) fk).2 = (buildUsers n (create_fake_user fk).2).2 := rfl

lemma buildUsers_length (n : Nat) (fk : FakerState) : (buildUsers n fk).1.length = n := by
  induction n generalizing fk with
  | zero => rfl
  | succ n ih => rw [buildUsers_succ_fst, List.length_cons, ih]

lemma buildUsers_emailCtr (n : Nat) (fk : FakerState) :
    ((buildUsers n fk).2).emailCtr = fk.emailCtr + n := by
  induction n generalizing fk with
  | zero => rfl
  | succ n ih =>
    rw [buildUsers_succ_snd, ih, create_fake_user_emailCtr]
    omega

lemma buildUsers_userNameCtr (n : Nat) (fk : FakerState) :
    ((buildUsers n fk).2).userNameCtr = fk.userNameCtr + n := by
  induction n generalizing fk with
  | zero => rfl
  | succ n ih =>
    rw [buildUsers_succ_snd, ih, create_fake_user_userNameCtr]
    omega

lemma buildUsers_emails (n : Nat) (fk : FakerState) :
    (buildUsers n fk).1.map UserData.email =
      (List.range n).map (fun i => uniqueEmail (fk.emailCtr + i)) := by
  induction n generalizing fk with
  | zero => rfl
  | succ n ih =>
    rw [buildUsers_succ_fst, List.map_cons, ih, List.range_succ_eq_map,
      List.map_cons, List.map_map]
    have h1 : UserData.email (create_fake_user fk).1 =
        (fun i => uniqueEmail (fk.emailCtr + i)) 0 := by
      simp [create_fake_user_email]
    have hp : ∀ i ∈ List.range n,
        uniqueEmail ((create_fake_user fk).2.emailCtr + i) =
          ((fun k => uniqueEmail (fk.emailCtr + k)) ∘ Nat.succ) i := by
      intro i hi
      simp only [Function.comp_apply]
      rw [create_fake_user_emailCtr]
      exact congrArg uniqueEmail (by omega)
    exact congrArg₂ List.cons h1 (List.map_congr_left hp)

lemma buildUsers_usernames (n : Nat) (fk : FakerState) :
    (buildUsers n fk).1.map UserData.username =
      (List.range n).map (fun i => uniqueUserName (fk.userNameCtr + i)) := by
  induction n generalizing fk with
  | zero => rfl
  | succ n ih =>
    rw [buildUsers_succ_fst, List.map_cons, ih, List.range_succ_eq_map,
      List.map_cons, List.map_map]
    have h1 : UserData.username (create_fake_user fk).1 =
        (fun i => uniqueUserName (fk.userNameCtr + i)) 0 := by
      simp [create_fake_user_username]
    have hp : ∀ i ∈ List.range n,
        uniqueUserName ((create_fake_user fk).2.userNameCtr + i) =
          ((fun k => uniqueUserName (fk.userNameCtr + k)) ∘ Nat.succ) i := by
      intro i hi
      simp only [Function.comp_apply]
      rw [create_fake_user_userNameCtr]
      exact congrArg uniqueUserName (by omega)
    exact congrArg₂ List.cons h1 (List.map_congr_left hp)

lemma nodup_map_range_add {f : Nat → String} (hf : ∀ a b : Nat, f a = f b → a = b)
    (c n : Nat) : ((List.range n).map (fun i => f (c + i))).Nodup := by
  apply List.Nodup.map ?_ (List.nodup_range n)
  intro i j hij
  have := hf _ _ hij
  omega

lemma nodup_map_range_add_append {f : Nat → String} (hf : ∀ a b : Nat, f a = f b → a = b)
    (c n m : Nat) :
    (((List.range n).map (fun i => f (c + i))) ++
      ((List.range m).map (fun j => f (c + n + j)))).Nodup := by
  rw [List.nodup_append]
  refine ⟨nodup_map_range_add hf c n, nodup_map_range_add hf (c + n) m, ?_⟩
  intro a ha hb
  simp only [List.mem_map, List.mem_range] at ha hb
  obtain ⟨i, hi, rfl⟩ := ha
  obtain ⟨j, hj, hje⟩ := hb
  have := hf _ _ hje
  omega

lemma foldl_sessionAdd (us : List UserData) (s : OrmSession) :
    us.foldl sessionAdd s = { s with pending := s.pending ++ us } := by
  induction us generalizing s with
  | nil => simp
  | cons u rest ih =>
    show rest.foldl sessionAdd (sessionAdd s u) = _
    rw [ih]
    simp [sessionAdd]

lemma seed_users_fst (p : Option Nat) (fk : FakerState) (s : OrmSession) :
    (seed_users p fk s).1 = (buildUsers (seedCount p) fk).1 := rfl

lemma seed_users_state (p : Option Nat) (fk : FakerState) (s : OrmSession) :
    (seed_users p fk s).2.1 = (buildUsers (seedCount p) fk).2 := rfl

lemma seed_users_session (p : Option Nat) (fk : FakerState) (s : OrmSession) :
    (seed_users p fk s).2.2 =
      sessionCommit ((buildUsers (seedCount p) fk).1.foldl sessionAdd s) := rfl

/-- C2: bulk seeding with an explicit count `N`, from a session with no
pending objects, constructs exactly `N` fake users, commits exactly once,
commits exactly those `N` records, and every record has a non-empty email
and username; emails and usernames are pairwise distinct, also across a
later seeding call in the same run (the generator state is threaded). -/
theorem seed_users_bulk (N : Nat) (fk : FakerState) (s : OrmSession)
    (hp : s.pending = []) :
    (seed_users (some N) fk s).1.length = N ∧
    ((seed_users (some N) fk s).2.2).commits = s.commits + 1 ∧
    ((seed_users (some N) fk s).2.2).pending = [] ∧
    ((seed_users (some N) fk s).2.2).committed = s.committed ++ (seed_users (some N) fk s).1 ∧
    (∀ u ∈ (seed_users (some N) fk s).1, u.email ≠ "" ∧ u.username ≠ "") ∧
    ((seed_users (some N) fk s).1.map UserData.email).Nodup ∧
    ((seed_users (some N) fk s).1.map UserData.username).Nodup ∧
    (∀ M : Nat,
      (((seed_users (some N) fk s).1.map UserData.email) ++
        ((seed_users (some M) ((seed_users (some N) fk s).2.1)
          ((seed_users (some N) fk s).2.2)).1.map UserData.email)).Nodup ∧
      (((seed_users (some N) fk s).1.map UserData.username) ++
        ((seed_users (some M) ((seed_users (some N) fk s).2.1)
          ((seed_users (some N) fk s).2.2)).1.map UserData.username)).Nodup) := by
  simp only [seed_users_fst, seed_users_state, seed_users_session, seedCount]
  refine ⟨buildUsers_length N fk, ?_, ?_, ?_, ?_, ?_, ?_, ?_⟩
  · rw [foldl_sessionAdd]
    rfl
  · rfl
  · rw [foldl_sessionAdd]
    simp [sessionCommit, hp]
  · intro u hu
    constructor
    · have hm : u.email ∈ (buildUsers N fk).1.map UserData.email :=
        List.mem_map_of_mem _ hu
      rw [buildUsers_emails] at hm
      simp only [List.mem_map] at hm
      obtain ⟨i, _, hie⟩ := hm
      rw [← hie]
      exact uniqueEmail_ne_empty _
    · have hm : u.username ∈ (buildUsers N fk).1.map UserData.username :=
        List.mem_map_of_mem _ hu
      rw [buildUsers_usernames] at hm
      simp only [List.mem_map] at hm
      obtain ⟨i, _, hie⟩ := hm
      rw [← hie]
      exact uniqueUserName_ne_empty _
  · rw [buildUsers_emails]
    exact nodup_map_range_add (fun a b h => uniqueEmail_inj h) fk.emailCtr N
  · rw [buildUsers_usernames]
    exact nodup_map_range_add (fun a b h => uniqueUserName_inj h) fk.userNameCtr N
  · intro M
    constructor
    · simp only [buildUsers_emails, buildUsers_emailCtr]
      exact nodup_map_range_add_append (fun a b h => uniqueEmail_inj h) fk.emailCtr N M
    · simp only [buildUsers_usernames, buildUsers_userNameCtr]
      exact nodup_map_range_add_append (fun a b h => uniqueUserName_inj h) fk.userNameCtr N M

/-- C2 witness: seeding 2 users from a fresh state yields 2 records with
distinct emails, one commit. -/
theorem seed_users_bulk_witness :
    (seed_users (some 2) (fakerInit (some 12345) 0)
      { pending := [], committed := [], commits := 0 }).1.length = 2 ∧
    ((seed_users (some 2) (fakerInit (some 12345) 0)
      { pending := [], committed := [], commits := 0 }).1.map UserData.email).Nodup ∧
    ((seed_users (some 2) (fakerInit (some 12345) 0)
      { pending := [], committed := [], commits := 0 }).2.2).commits = 0 + 1 :=
  ⟨(seed_users_bulk 2 (fakerInit (some 12345) 0) _ rfl).1,
   (seed_users_bulk 2 (fakerInit (some 12345) 0) _ rfl).2.2.2.2.2.1,
   (seed_users_bulk 2 (fakerInit (some 12345) 0) _ rfl).2.1⟩

/-- C7: invoked without an explicit count (absent `request.param`, the
`AttributeError` fallback), the count defaults to 5 and exactly 5 users
are seeded. -/
theorem seed_users_default_count (fk : FakerState) (s : OrmSession) :
    seedCount none = 5 ∧ (seed_users none fk s).1.length = 5 := by
  refine ⟨rfl, ?_⟩
  rw [seed_users_fst]
  exact buildUsers_length (seedCount none) fk

/-- C8: with the generator seeded with the fixed seed 12345 (or any fixed
seed), two independent runs — whatever ambient entropy each process has —
produce the same first generated user record. -/
theorem create_fake_user_seed_deterministic (seed e1 e2 : Nat) :
    (create_fake_user (fakerInit (some seed) e1)).1 =
      (create_fake_user (fakerInit (some seed) e2)).1 := rfl

/-!
Per-test database sessions (conftest.py lines 55-65 and 119-133). A
session is modelled by the committed database contents, the session's
transactional view, a commit counter and a closed flag; the code run while
the fixture is yielded is summarized by its outcome (normal return or
`SQLAlchemyError`), and the observable actions of the fixture code are
recorded as an event trace.
-/

/-- One named table of the test schema together with its rows
(row payloads abstracted to `Nat`). -/
structure Table where
  name : String
  rows : List Nat
deriving DecidableEq

/-- Observable actions of the session fixture code. -/
inductive DbEvent where
  | logError (msg : String)
  | rollback
  | commit
  | truncate (table : String)
  | close
deriving DecidableEq

/-- Outcome of the test code run while a session fixture is yielded:
normal completion or a raised `SQLAlchemyError` with its message. -/
inductive BodyOutcome (α : Type) where
  | ok (a : α)
  | sqlError (msg : String)

/-- State of one session over the test database at the time the fixture
regains control: committed contents, the session's transactional view
(`Base.metadata.sorted_tables` in dependency order), commit count, closed
flag. -/
structure SessionState where
  db : List Table
  view : List Table
  commits : Nat
  closed : Bool
deriving DecidableEq

/-- `session.execute(table.delete())` inside the open transaction: removes
every row of the named table from the session view. -/
def execDelete (view : List Table) (name : String) : List Table :=
  view.map (fun t => if t.name = name then { t with rows := [] } else t)

/-- `managed_db_session` (conftest.py lines 55-65): yield the session; on
`SQLAlchemyError` log the error, roll back, re-raise; always close in the
`finally` block. -/
def managed_db_session {α : Type} (st : SessionState) (body : BodyOutcome α) :
    SessionState × List DbEvent × Except String α :=
  match body with
  | BodyOutcome.ok a => ({ st with closed := true }, [DbEvent.close], Except.ok a)
  | BodyOutcome.sqlError m =>
      ({ st with view := st.db, closed := true },
       [DbEvent.logError m, DbEvent.rollback, DbEvent.close], Except.error m)

/-- `db_session` fixture (conftest.py lines 119-133): yield the session;
in the `finally` block, unless `--preserve-db` was given, delete all rows
from every known table in reverse dependency order and commit; always
close. Any exception from the test propagates unchanged. `st` is the
session state when teardown starts (after the test body ran). -/
def db_session {α : Type} (preserve : Bool) (st : SessionState) (body : BodyOutcome α) :
    SessionState × List DbEvent × Except String α :=
  let names := (st.view.map Table.name).reverse
  let result : Except String α :=
    match body with
    | BodyOutcome.ok a => Except.ok a
    | BodyOutcome.sqlError m => Except.error m
  if preserve then
    ({ st with closed := true }, [DbEvent.close], result)
  else
    let view2 := names.foldl execDelete st.view
    ({ db := view2, view := view2, commits := st.commits + 1, closed := true },
     names.map DbEvent.truncate ++ [DbEvent.commit, DbEvent.close], result)

lemma foldl_execDelete (names : List String) (view : List Table) :
    names.foldl execDelete view =
      view.map (fun t => if t.name ∈ names then { t with rows := [] } else t) := by
  induction names generalizing view with
  | nil => simp
  | cons n ns ih =>
    show ns.foldl execDelete (execDelete view n) = _
    rw [ih]
    unfold execDelete
    rw [List.map_map]
    apply List.map_congr_left
    intro t ht
    by_cases h1 : t.name = n
    · by_cases h2 : t.name ∈ ns <;> simp [h1, h2]
    · by_cases h2 : t.name ∈ ns <;> simp [h1, h2]

lemma mem_foldl_execDelete_rows (view : List Table) (t : Table)
    (ht : t ∈ ((view.map Table.name).reverse).foldl execDelete view) :
    t.rows = [] := by
  rw [foldl_execDelete] at ht
  simp only [List.mem_map] at ht
  obtain ⟨u, hu, hut⟩ := ht
  have hn : u.name ∈ (view.map Table.name).reverse := by
    rw [List.mem_reverse]
    exact List.mem_map_of_mem Table.name hu
  rw [if_pos hn] at hut
  rw [← hut]

/-- C3: after per-test release with `--preserve-db` off, every known table
has zero rows, the deletions are committed (tables were emptied in reverse
dependency order, then a commit, then close — as the event trace shows),
and the handle is closed whatever the test outcome; with the flag on, the
rows are untouched and persist. -/
theorem db_session_truncates (st : SessionState) (body : BodyOutcome Unit) :
    (∀ t ∈ ((db_session false st body).1).db, t.rows = []) ∧
    ((db_session false st body).1).commits = st.commits + 1 ∧
    ((db_session false st body).1).closed = true ∧
    (db_session false st body).2.1 =
      ((st.view.map Table.name).reverse.map DbEvent.truncate) ++
        [DbEvent.commit, DbEvent.close] ∧
    ((db_session true st body).1).db = st.db ∧
    ((db_session true st body).1).view = st.view ∧
    ((db_session true st body).1).closed = true := by
  refine ⟨?_, rfl, rfl, rfl, rfl, rfl, rfl⟩
  intro t ht
  exact mem_foldl_execDelete_rows st.view t ht

/-- C3 witness: a concrete session with one populated table is emptied,
committed and closed; the concrete table in the resulting database has no
rows. -/
theorem db_session_truncates_witness :
    (Table.mk "users" ([] : List Nat)).rows = [] ∧
    ((db_session false
      { db := [Table.mk "users" [1, 2]], view := [Table.mk "users" [1, 2]],
        commits := 0, closed := false }
      (BodyOutcome.sqlError "boom" : BodyOutcome Unit)).1).closed = true ∧
    ((db_session false
      { db := [Table.mk "users" [1, 2]], view := [Table.mk "users" [1, 2]],
        commits := 0, closed := false }
      (BodyOutcome.sqlError "boom" : BodyOutcome Unit)).1).commits = 0 + 1 :=
  ⟨(db_session_truncates
      { db := [Table.mk "users" [1, 2]], view := [Table.mk "users" [1, 2]],
        commits := 0, closed := false }
      (BodyOutcome.sqlError "boom")).1 (Table.mk "users" []) (by decide),
   (db_session_truncates
      { db := [Table.mk "users" [1, 2]], view := [Table.mk "users" [1, 2]],
        commits := 0, closed := false }
      (BodyOutcome.sqlError "boom")).2.2.1,
   (db_session_truncates
      { db := [Table.mk "users" [1, 2]], view := [Table.mk "users" [1, 2]],
        commits := 0, closed := false }
      (BodyOutcome.sqlError "boom")).2.1⟩

/-- C1 counterexample: the per-test `db_session` fixture, on a database
error raised during use, neither emits a rollback nor logs the error
before closing — its teardown only truncates, commits and closes — so the
claim is false of the per-test session at this concrete input. -/
theorem db_session_error_no_rollback :
    DbEvent.rollback ∉ (db_session false
      { db := [Table.mk "users" [1]], view := [Table.mk "users" [1]],
        commits := 0, closed := false }
      (BodyOutcome.sqlError "boom" : BodyOutcome Unit)).2.1 ∧
    DbEvent.logError "boom" ∉ (db_session false
      { db := [Table.mk "users" [1]], view := [Table.mk "users" [1]],
        commits := 0, closed := false }
      (BodyOutcome.sqlError "boom" : BodyOutcome Unit)).2.1 := by
  decide

/-- C1 (amended): the `managed_db_session` context manager logs a database
error, rolls back before the handle is closed, and re-raises it; the
per-test `db_session` fixture re-raises the error and always closes the
handle, but performs no rollback. -/
theorem managed_db_session_error_handling (m : String) (st : SessionState) :
    ((managed_db_session st (BodyOutcome.sqlError m : BodyOutcome Unit)).2.2 =
      Except.error m) ∧
    ((managed_db_session st (BodyOutcome.sqlError m : BodyOutcome Unit)).2.1 =
      [DbEvent.logError m, DbEvent.rollback, DbEvent.close]) ∧
    (∃ i j : Nat, i < j ∧
      ((managed_db_session st (BodyOutcome.sqlError m : BodyOutcome Unit)).2.1)[i]? =
        some DbEvent.rollback ∧
      ((managed_db_session st (BodyOutcome.sqlError m : BodyOutcome Unit)).2.1)[j]? =
        some DbEvent.close) ∧
    ((managed_db_session st (BodyOutcome.sqlError m : BodyOutcome Unit)).1).closed = true ∧
    (∀ preserve : Bool,
      (db_session preserve st (BodyOutcome.sqlError m : BodyOutcome Unit)).2.2 =
        Except.error m ∧
      DbEvent.rollback ∉
        (db_session preserve st (BodyOutcome.sqlError m : BodyOutcome Unit)).2.1 ∧
      ((db_session preserve st (BodyOutcome.sqlError m : BodyOutcome Unit)).1).closed =
        true) := by
  refine ⟨rfl, rfl, ⟨1, 2, by omega, rfl, rfl⟩, rfl, ?_⟩
  intro preserve
  cases preserve with
  | false =>
    refine ⟨rfl, ?_, rfl⟩
    simp [db_session]
  | true =>
    refine ⟨rfl, ?_, rfl⟩
    simp [db_session]

/-!
Server startup and health polling (conftest.py lines 70-83 and 173-191).
Time is discretized at the 1-second sleep of the polling loop: the
response of the health endpoint at the poll made after `t` elapsed seconds
is `responses t`; the loop runs while the elapsed time is below the
timeout, so with a fresh start it polls at t = 0, 1, ..., timeout - 1.
`requests.get` either returns a response with a status code or raises
`ConnectionError`, the only exception the loop handles.
-/

/-- Result of one `requests.get` against the health endpoint. -/
inductive HttpResult where
  | ok (status : Nat)
  | connError
deriving DecidableEq

/-- The `while` loop of `wait_for_server`, with `fuel = timeout - t`
remaining iterations and `t` seconds elapsed: return `true` on a 200
status, silently skip a `ConnectionError` (the `pass` branch) and any
non-200 status, sleep one second, and give up with `false` when the
timeout window is exhausted. -/
def waitLoop (responses : Nat → HttpResult) : Nat → Nat → Bool
  | 0, _ => false
  | fuel + 1, t =>
    match responses t with
    | HttpResult.ok 200 => true
    | _ => waitLoop responses fuel (t + 1)

/-- `wait_for_server` (conftest.py lines 70-80): poll the health endpoint
once a second from a fresh start until a 200 response or the timeout
(default 30 in the source; the caller passes 30 explicitly). -/
def wait_for_server (responses : Nat → HttpResult) (timeout : Nat) : Bool :=
  waitLoop responses timeout 0

/-- Result of the `fastapi_server` fixture: either the distinct
`ServerStartupError` is raised before yielding, or the test body ran. -/
inductive ServerFixtureResult (α : Type) where
  | startupError
  | testRan (a : α)
deriving DecidableEq

/-- `fastapi_server` (conftest.py lines 173-191): start the subprocess,
wait for the health endpoint with a 30-second timeout, raise
`ServerStartupError` if it never came up, otherwise yield to the test. -/
def fastapi_server {α : Type} (responses : Nat → HttpResult) (test : Unit → α) :
    ServerFixtureResult α :=
  if wait_for_server responses 30 then ServerFixtureResult.testRan (test ())
  else ServerFixtureResult.startupError

lemma waitLoop_false (responses : Nat → HttpResult) (fuel t : Nat)
    (h : ∀ u : Nat, t ≤ u → u < t + fuel → responses u ≠ HttpResult.ok 200) :
    waitLoop responses fuel t = false := by
  induction fuel generalizing t with
  | zero => rfl
  | succ fuel ih =>
    unfold waitLoop
    split
    · rename_i heq
      exact absurd heq (h t (le_refl t) (by omega))
    · exact ih (t + 1) (fun u hu1 hu2 => h u (by omega) (by omega))

lemma waitLoop_true (responses : Nat → HttpResult) (fuel : Nat) :
    ∀ t j : Nat, t ≤ j → j < t + fuel →
      (∀ u : Nat, t ≤ u → u < j → responses u = HttpResult.connError) →
      responses j = HttpResult.ok 200 → waitLoop responses fuel t = true := by
  induction fuel with
  | zero =>
    intro t j htj hjf hconn h200
    omega
  | succ fuel ih =>
    intro t j htj hjf hconn h200
    unfold waitLoop
    by_cases hte : t = j
    · subst hte
      rw [h200]
    · have hconnt : responses t = HttpResult.connError := hconn t (le_refl t) (by omega)
      rw [hconnt]
      exact ih (t + 1) j (by omega) (by omega)
        (fun u hu1 hu2 => hconn u (by omega) hu2) h200

/-- C4: if the health endpoint never returns status 200 within the
30-second timeout window, `wait_for_server` reports failure and the
`fastapi_server` fixture raises the distinct startup error — for every
test body, control is never yielded to the test. -/
theorem fastapi_server_startup_error {α : Type} (responses : Nat → HttpResult)
    (h : ∀ u : Nat, u < 30 → responses u ≠ HttpResult.ok 200) :
    wait_for_server responses 30 = false ∧
    ∀ test : Unit → α, fastapi_server responses test = ServerFixtureResult.startupError := by
  have hw : wait_for_server responses 30 = false :=
    waitLoop_false responses 30 0 (fun u hu1 hu2 => h u (by omega))
  refine ⟨hw, fun test => ?_⟩
  unfold fastapi_server
  rw [hw]
  simp

/-- C4 witness: a server that never comes up (every poll refused) makes
the fixture raise the startup error. -/
theorem fastapi_server_startup_error_witness :
    wait_for_server (fun _ => HttpResult.connError) 30 = false ∧
    fastapi_server (fun _ => HttpResult.connError) (fun _ => (0 : Nat)) =
      ServerFixtureResult.startupError :=
  ⟨(fastapi_server_startup_error (α := Nat) (fun _ => HttpResult.connError)
      (fun u hu => by simp)).1,
   (fastapi_server_startup_error (α := Nat) (fun _ => HttpResult.connError)
      (fun u hu => by simp)).2 (fun _ => 0)⟩

/-- C9: a connection-refused answer on an individual poll is silently
ignored and polling continues — if every poll before second `j` raises
`ConnectionError` and the poll at `j` (within the timeout) returns 200,
the wait still succeeds; and a run of nothing but connection errors simply
times out with `false`: the loop always returns a boolean rather than
propagating the connection error. -/
theorem wait_for_server_ignores_connError (responses : Nat → HttpResult)
    (timeout j : Nat) (hj : j < timeout)
    (hconn : ∀ u : Nat, u < j → responses u = HttpResult.connError)
    (h200 : responses j = HttpResult.ok 200) :
    wait_for_server responses timeout = true ∧
    ∀ T : Nat, wait_for_server (fun _ => HttpResult.connError) T = false := by
  constructor
  · exact waitLoop_true responses timeout 0 j (by omega) (by omega)
      (fun u hu1 hu2 => hconn u hu2) h200
  · intro T
    exact waitLoop_false (fun _ => HttpResult.connError) T 0 (fun u hu1 hu2 => by simp)

/-- C9 witness: three refused polls followed by a 200 still succeed. -/
theorem wait_for_server_ignores_connError_witness :
    wait_for_server
      (fun t => if t < 3 then HttpResult.connError else HttpResult.ok 200) 30 = true :=
  (wait_for_server_ignores_connError
    (fun t => if t < 3 then HttpResult.connError else HttpResult.ok 200) 30 3
    (by omega) (fun u hu => by simp [hu]) (by norm_num)).1
